import Mathlib

/-!
Verification of the asynchronous task-consumption engine of crochee/lirity
(package async, taskConsumer). The Go functions handle, handleMessage and
Subscribe are shallowly embedded as pure Lean functions. Fallible external
calls (codec unmarshal, payload decode, validation, handler run, broker
Ack/Reject) are oracles supplied as inputs: an Option String that is none
when the Go call returns a nil error and some e when it returns error e.
The embedding records the sequence of observable actions as a trace.
-/

namespace Lirity.Async

/-- Observable events performed by taskConsumer.handle for one delivery:
acquiring the pooled task parameter (Get), running the dispatched handler
(manager.Run), returning the parameter to the pool (Put), and the terminal
broker calls d.Ack(multiple) and d.Reject(requeue). -/
inductive HEvent where
  | get : HEvent
  | run : HEvent
  | put : HEvent
  | ack : Bool → HEvent
  | reject : Bool → HEvent
  deriving Repr, DecidableEq

/-- Outcomes of the fallible calls made while handling one delivery, in the
order handle performs them. none models a nil Go error, some e an error e.
rejectErr and ackErr are the results of the terminal broker calls
d.Reject(false) and d.Ack(false) when handle reaches them. -/
structure HandleInput where
  unmarshalErr : Option String
  payloadUnmarshalErr : Option String
  validateErr : Option String
  runErr : Option String
  rejectErr : Option String
  ackErr : Option String
  deriving Repr, DecidableEq

/-- Embedding of taskConsumer.handle (part_000 lines 113-161). Returns the
trace of events together with the error value handle returns. Each failure
branch in the source logs, calls d.Reject(false), and returns that call's
error (nil when the Reject succeeded); the success branch returns
d.Ack(false) directly. Get() is called only after the raw unmarshal
succeeded; Put(param) is called only on the two branches after manager.Run
returns (lines 147-148). -/
def handleTrace (i : HandleInput) : List HEvent × Option String :=
  match i.unmarshalErr with
  | some _ => ([HEvent.reject false], i.rejectErr)
  | none =>
    match i.payloadUnmarshalErr with
    | some _ => ([HEvent.get, HEvent.reject false], i.rejectErr)
    | none =>
      match i.validateErr with
      | some _ => ([HEvent.get, HEvent.reject false], i.rejectErr)
      | none =>
        match i.runErr with
        | some _ =>
            ([HEvent.get, HEvent.run, HEvent.put, HEvent.reject false], i.rejectErr)
        | none =>
            ([HEvent.get, HEvent.run, HEvent.put, HEvent.ack false], i.ackErr)

/-- Whether an event is a terminal broker call (Ack or Reject). -/
def isTerminal : HEvent → Bool
  | HEvent.ack _ => true
  | HEvent.reject _ => true
  | _ => false

/-- The terminal broker calls handle makes for one delivery, in order. -/
def brokerCalls (i : HandleInput) : List HEvent :=
  (handleTrace i).1.filter isTerminal

/-- State of the amqp deliveries channel: buffered deliveries not yet
received, and whether the channel has been closed by the broker library. -/
structure ChanState where
  buf : List HandleInput
  closed : Bool
  deriving Repr, DecidableEq

/-- Result of running the inner message loop for a bounded number of steps:
it returned to the caller, it blocked waiting on an open empty channel, or
the step budget ran out with the loop still going. subs lists the
deliveries submitted to the worker pool so far, in order. -/
inductive HMOutcome where
  | returned : List HandleInput → HMOutcome
  | blocked : List HandleInput → HMOutcome
  | fuelOut : List HandleInput → HMOutcome
  deriving Repr, DecidableEq

/-- Embedding of taskConsumer.handleMessage (part_000 lines 98-111). Each
iteration runs one select round over the two cases of the source, the
ctx.Done receive and the deliveries receive. Following Go select
semantics, only a ready case can fire, a lone ready case fires, and when
both are ready the choice is random: sched n decides the round taken with
n units of fuel left (true picks the ctx.Done case, false the deliveries
case). The ctx.Done case is ready iff the context is done (ctxDone, fixed
for the run). The deliveries receive is ready when the buffer is nonempty
or the channel is closed: a receive on an empty closed channel yields the
zero value z at once, since the source does not test the ok flag of the
receive. Every received value is submitted to the pool (appended to
subs); when neither case is ready the select blocks. -/
def handleMessage (z : HandleInput) (sched : Nat → Bool) :
    Nat → Bool → ChanState → List HandleInput → HMOutcome
  | 0, _, _, subs => HMOutcome.fuelOut subs
  | Nat.succ _, true, ⟨[], false⟩, subs => HMOutcome.returned subs
  | Nat.succ n, true, ⟨d :: rest, closed⟩, subs =>
      if sched n then HMOutcome.returned subs
      else handleMessage z sched n true ⟨rest, closed⟩ (subs ++ [d])
  | Nat.succ n, true, ⟨[], true⟩, subs =>
      if sched n then HMOutcome.returned subs
      else handleMessage z sched n true ⟨[], true⟩ (subs ++ [z])
  | Nat.succ n, false, ⟨d :: rest, closed⟩, subs =>
      handleMessage z sched n false ⟨rest, closed⟩ (subs ++ [d])
  | Nat.succ n, false, ⟨[], true⟩, subs =>
      handleMessage z sched n false ⟨[], true⟩ (subs ++ [z])
  | Nat.succ _, false, ⟨[], false⟩, subs => HMOutcome.blocked subs

/-- Arguments of one channel.Consume call as issued by Subscribe. argsNil
records that the amqp table argument is nil. -/
structure ConsumeArgs where
  queue : String
  consumerTag : String
  autoAck : Bool
  exclusive : Bool
  noLocal : Bool
  noWait : Bool
  argsNil : Bool
  deriving Repr, DecidableEq

/-- The literal arguments Subscribe passes to channel.Consume
(part_000 lines 72-86): the queue name, the tag "consumer."+queueName, and
autoAck=false, exclusive=false, noLocal=false, noWait=false, nil args. -/
def consumeArgs (queueName : String) : ConsumeArgs :=
  { queue := queueName
    consumerTag := "consumer." ++ queueName
    autoAck := false
    exclusive := false
    noLocal := false
    noWait := false
    argsNil := true }

/-- Outcome of one channel.Consume call, supplied by the environment:
either an error, or a delivery stream in the given state. -/
inductive ConsumeOutcome where
  | fail : ConsumeOutcome
  | ok : ChanState → ConsumeOutcome

/-- Observable actions of the Subscribe loop: a Consume call with its
arguments, or the submission of one delivery as a pool task. -/
inductive SubEvent where
  | consumeCall : ConsumeArgs → SubEvent
  | submitted : HandleInput → SubEvent
  deriving Repr, DecidableEq

/-- Result of running the Subscribe loop for a bounded number of steps,
carrying the trace of actions performed. -/
inductive SubOutcome where
  | returned : List SubEvent → SubOutcome
  | blocked : List SubEvent → SubOutcome
  | fuelOut : List SubEvent → SubOutcome

/-- The action trace of a Subscribe loop outcome. -/
def traceOf : SubOutcome → List SubEvent
  | SubOutcome.returned tr => tr
  | SubOutcome.blocked tr => tr
  | SubOutcome.fuelOut tr => tr

/-- Embedding of the goroutine body started by Subscribe (part_000 lines
65-93). Each iteration runs the select of lines 67-71: its ctx.Done case
returns, and its default case falls through, so when the context is done
the return is deterministic (a default fires only when no other case is
ready). A live iteration calls channel.Consume with consumeArgs queueName;
on error it logs and retries immediately (continue); on success it runs
handleMessage (with the select scheduler sched) on the returned stream
and, when that returns, loops to re-open the stream. env k is the outcome
of the k-th Consume call; fuel bounds outer iterations and innerFuel
bounds each inner loop. -/
def subscribeLoop (z : HandleInput) (sched : Nat → Bool) (queueName : String)
    (innerFuel : Nat) :
    Nat → Bool → (Nat → ConsumeOutcome) → Nat → List SubEvent → SubOutcome
  | 0, _, _, _, tr => SubOutcome.fuelOut tr
  | Nat.succ _, true, _, _, tr => SubOutcome.returned tr
  | Nat.succ n, false, env, k, tr =>
      match env k with
      | ConsumeOutcome.fail =>
          subscribeLoop z sched queueName innerFuel n false env (k + 1)
            (tr ++ [SubEvent.consumeCall (consumeArgs queueName)])
      | ConsumeOutcome.ok ch =>
          match handleMessage z sched innerFuel false ch [] with
          | HMOutcome.returned subs =>
              subscribeLoop z sched queueName innerFuel n false env (k + 1)
                ((tr ++ [SubEvent.consumeCall (consumeArgs queueName)]) ++
                  subs.map SubEvent.submitted)
          | HMOutcome.blocked subs =>
              SubOutcome.blocked
                ((tr ++ [SubEvent.consumeCall (consumeArgs queueName)]) ++
                  subs.map SubEvent.submitted)
          | HMOutcome.fuelOut subs =>
              SubOutcome.fuelOut
                ((tr ++ [SubEvent.consumeCall (consumeArgs queueName)]) ++
                  subs.map SubEvent.submitted)

/-- Embedding of taskConsumer.Subscribe (part_000 lines 64-96): it starts
the loop in the pool, blocks on pool.Wait, and returns nil. The result is
some r when Subscribe returns (the loop goroutine returned, so Wait
unblocks) with return value r, and none when Subscribe has not returned
within the modelled budget (loop blocked or fuel exhausted). The source
returns the literal nil after Wait on every path. -/
def subscribe (z : HandleInput) (sched : Nat → Bool) (queueName : String)
    (innerFuel fuel : Nat) (ctxDone : Bool) (env : Nat → ConsumeOutcome) :
    Option (Option String) :=
  match subscribeLoop z sched queueName innerFuel fuel ctxDone env 0 [] with
  | SubOutcome.returned _ => some none
  | SubOutcome.blocked _ => none
  | SubOutcome.fuelOut _ => none

/-- A delivery on which every modelled call succeeds. -/
def allOk : HandleInput :=
  { unmarshalErr := none, payloadUnmarshalErr := none, validateErr := none
    runErr := none, rejectErr := none, ackErr := none }

/-- A delivery whose raw codec unmarshal fails. -/
def badRaw : HandleInput :=
  { allOk with unmarshalErr := some "unexpected end of message" }

/-- A delivery whose payload fails to decode into the task parameter. -/
def badPayload : HandleInput :=
  { allOk with payloadUnmarshalErr := some "invalid character" }

/-- A delivery whose decoded task parameter fails validation. -/
def badValidate : HandleInput :=
  { allOk with validateErr := some "required field missing" }

/-- A delivery whose handler returns an error. -/
def badRun : HandleInput :=
  { allOk with runErr := some "boom" }

/-- C1: on every path through handle (raw-unmarshal failure, payload-decode
failure, validation failure, handler error, handler success), exactly one
terminal broker call is made: a single Reject(false) or a single
Ack(false), never both and never neither. -/
theorem handle_exactly_one_terminal_call (i : HandleInput) :
    brokerCalls i = [HEvent.reject false] ∨ brokerCalls i = [HEvent.ack false] := by
  rcases i with ⟨u, p, v, r, rj, ak⟩
  cases u <;> cases p <;> cases v <;> cases r <;>
    simp [brokerCalls, handleTrace, isTerminal]

/-- C2: for a delivery that decodes and validates successfully, handle
calls Ack(false) exactly once and never Reject when the dispatched handler
returns nil, and calls Reject(false) exactly once and never Ack when the
handler returns a non-nil error. -/
theorem handle_dispatch_outcome (i : HandleInput)
    (hu : i.unmarshalErr = none) (hp : i.payloadUnmarshalErr = none)
    (hv : i.validateErr = none) :
    (i.runErr = none → brokerCalls i = [HEvent.ack false]) ∧
      (∀ e, i.runErr = some e → brokerCalls i = [HEvent.reject false]) := by
  rcases i with ⟨u, p, v, r, rj, ak⟩
  simp only at hu hp hv
  subst hu hp hv
  cases r <;> simp [brokerCalls, handleTrace, isTerminal]

/-- C2 witness: on the concrete all-successful delivery handle acks once,
and on the concrete handler-error delivery it rejects once. -/
theorem handle_dispatch_outcome_witness :
    brokerCalls allOk = [HEvent.ack false] ∧
      brokerCalls badRun = [HEvent.reject false] :=
  ⟨(handle_dispatch_outcome allOk rfl rfl rfl).1 rfl,
    (handle_dispatch_outcome badRun rfl rfl rfl).2 "boom" rfl⟩

/-- C3: when the raw unmarshal by the message codec fails, handle calls
Reject(false) exactly once, never Ack, never reaches manager.Run, and does
not even acquire the pooled parameter: the whole trace is that one Reject. -/
theorem handle_unmarshal_failure (i : HandleInput) (e : String)
    (hu : i.unmarshalErr = some e) :
    brokerCalls i = [HEvent.reject false] ∧
      HEvent.run ∉ (handleTrace i).1 ∧
      (handleTrace i).1 = [HEvent.reject false] := by
  rcases i with ⟨u, p, v, r, rj, ak⟩
  simp only at hu
  subst hu
  simp [brokerCalls, handleTrace, isTerminal]

/-- C3 witness: the concrete delivery with an unparseable raw body is
rejected once with no handler invocation. -/
theorem handle_unmarshal_failure_witness :
    brokerCalls badRaw = [HEvent.reject false] ∧
      HEvent.run ∉ (handleTrace badRaw).1 ∧
      (handleTrace badRaw).1 = [HEvent.reject false] :=
  handle_unmarshal_failure badRaw "unexpected end of message" rfl

/-- C4 is violated by the code: on a payload-decode failure and on a
validation failure, handle rejects but never calls Put, although Get was
called — the pooled task parameter leaks on both error paths
(part_000 lines 128-146 have no Put and no defer). -/
theorem handle_leaks_param_on_decode_and_validate_failure :
    (handleTrace badPayload).1 = [HEvent.get, HEvent.reject false] ∧
      HEvent.put ∉ (handleTrace badPayload).1 ∧
      (handleTrace badValidate).1 = [HEvent.get, HEvent.reject false] ∧
      HEvent.put ∉ (handleTrace badValidate).1 := by
  refine ⟨rfl, ?_, rfl, ?_⟩ <;> decide

/-- C8: for every delivery that reaches dispatch, Put is called immediately
after manager.Run returns and before the terminal broker call, whether Run
returned nil or an error: the trace is exactly Get, Run, Put, then the
terminal call determined by the Run outcome. -/
theorem handle_put_after_run_before_terminal (i : HandleInput)
    (hu : i.unmarshalErr = none) (hp : i.payloadUnmarshalErr = none)
    (hv : i.validateErr = none) :
    (handleTrace i).1 =
      [HEvent.get, HEvent.run, HEvent.put,
        if i.runErr.isSome then HEvent.reject false else HEvent.ack false] := by
  rcases i with ⟨u, p, v, r, rj, ak⟩
  simp only at hu hp hv
  subst hu hp hv
  cases r <;> simp [handleTrace]

/-- C8 witness: concrete traces for a successful run and a failing run both
place Put directly after Run and before the terminal call. -/
theorem handle_put_after_run_before_terminal_witness :
    (handleTrace allOk).1 =
        [HEvent.get, HEvent.run, HEvent.put,
          if allOk.runErr.isSome then HEvent.reject false else HEvent.ack false] ∧
      (handleTrace badRun).1 =
        [HEvent.get, HEvent.run, HEvent.put,
          if badRun.runErr.isSome then HEvent.reject false else HEvent.ack false] :=
  ⟨handle_put_after_run_before_terminal allOk rfl rfl rfl,
    handle_put_after_run_before_terminal badRun rfl rfl rfl⟩

/-- C10: the error handle returns is exactly the error of the terminal
broker call it made — the Ack result on the ack path and the Reject result
on every reject path — so decode, validation and handler errors are
absorbed, and when the terminal call succeeds handle returns nil. -/
theorem handle_error_only_from_terminal_call (i : HandleInput) :
    (handleTrace i).2 =
        (if HEvent.ack false ∈ (handleTrace i).1 then i.ackErr else i.rejectErr) ∧
      (i.rejectErr = none → i.ackErr = none → (handleTrace i).2 = none) := by
  rcases i with ⟨u, p, v, r, rj, ak⟩
  cases u <;> cases p <;> cases v <;> cases r <;>
    simp [handleTrace] <;> exact fun h _ => h

/-- C10 witness: a delivery whose handler fails but whose Reject call
succeeds makes handle return nil, per the characterization. -/
theorem handle_error_only_from_terminal_call_witness :
    (handleTrace badRun).2 = none :=
  (handle_error_only_from_terminal_call badRun).2 rfl rfl

/-- C5 is violated by the code: on a closed and drained delivery stream
with the context still live, handleMessage never returns — the receive in
its select ignores the closed flag of the channel, so every iteration
yields the zero-value delivery and submits it as a pool task, for as many
steps as the model runs, under every select schedule. -/
theorem handleMessage_spins_on_closed_stream (z : HandleInput)
    (sched : Nat → Bool) :
    ∀ (n : Nat) (subs : List HandleInput),
      handleMessage z sched n false ⟨[], true⟩ subs =
        HMOutcome.fuelOut (subs ++ List.replicate n z) := by
  intro n
  induction n with
  | zero => intro subs; simp [handleMessage]
  | succ n ih =>
      intro subs
      have hstep : handleMessage z sched (n + 1) false ⟨[], true⟩ subs =
          handleMessage z sched n false ⟨[], true⟩ (subs ++ [z]) := rfl
      rw [hstep, ih]
      simp [List.replicate_succ, List.append_assoc]

/-- C7 as stated is violated by the code: the inner select picks uniformly
at random among its ready cases, so with the context already canceled and
a delivery sitting ready in the stream, a round can take the deliveries
case and submit one more pool task. Concretely, with one buffered delivery
and the schedule that picks the deliveries case, the canceled inner loop
still submits that delivery before returning. -/
theorem cancel_submission_counterexample :
    handleMessage allOk (fun _ => false) 2 true ⟨[badRun], false⟩ [] =
      HMOutcome.returned [badRun] := by decide

/-- C7 amended: after the shared context is canceled, the outer loop
returns before any further Consume call (its select has a default, so the
done case fires deterministically), and the inner loop submits no further
delivery on any select round that takes the ctx.Done case — always when no
delivery is ready, and under every schedule that picks the done case while
both cases are ready — leaving the already-submitted work untouched rather
than aborting it. Submission after cancellation remains possible exactly
when a ready delivery wins the random select. -/
theorem cancel_no_reopen_no_submission_on_done_branch (z : HandleInput)
    (sched : Nat → Bool) (q : String) (innerFuel fuel : Nat)
    (env : Nat → ConsumeOutcome) (k : Nat) (tr : List SubEvent)
    (subs : List HandleInput) (h : 0 < fuel) :
    subscribeLoop z sched q innerFuel fuel true env k tr =
        SubOutcome.returned tr ∧
      handleMessage z sched fuel true ⟨[], false⟩ subs =
        HMOutcome.returned subs ∧
      ((∀ i, sched i = true) →
        ∀ ch, handleMessage z sched fuel true ch subs =
          HMOutcome.returned subs) := by
  obtain ⟨m, rfl⟩ : ∃ m, fuel = m + 1 := ⟨fuel - 1, by omega⟩
  refine ⟨rfl, rfl, ?_⟩
  intro hs ch
  rcases ch with ⟨buf, closed⟩
  cases buf with
  | nil => cases closed <;> simp [handleMessage, hs]
  | cons d rest => simp [handleMessage, hs]

/-- C7 witness: with the context canceled, one outer step returns with an
empty trace, an inner step on an idle stream returns with no submissions,
and even with a buffered delivery the done-picking schedule submits
nothing. -/
theorem cancel_no_reopen_no_submission_on_done_branch_witness :
    subscribeLoop allOk (fun _ => true) "tasks" 0 1 true
        (fun _ => ConsumeOutcome.fail) 0 [] = SubOutcome.returned [] ∧
      handleMessage allOk (fun _ => true) 1 true ⟨[badRun], false⟩ [] =
        HMOutcome.returned [] :=
  ⟨(cancel_no_reopen_no_submission_on_done_branch allOk (fun _ => true)
      "tasks" 0 1 (fun _ => ConsumeOutcome.fail) 0 [] [] (by decide)).1,
    (cancel_no_reopen_no_submission_on_done_branch allOk (fun _ => true)
      "tasks" 0 1 (fun _ => ConsumeOutcome.fail) 0 [] [] (by decide)).2.2
      (fun _ => rfl) ⟨[badRun], false⟩⟩

/-- C6: whenever Subscribe returns at all, it returns nil — no per-message
error, no Consume failure and no broker Ack or Reject failure reaches its
caller, for every environment and every context state. -/
theorem subscribe_returns_nil (z : HandleInput) (sched : Nat → Bool)
    (q : String) (innerFuel fuel : Nat) (ctxDone : Bool)
    (env : Nat → ConsumeOutcome) (r : Option String)
    (h : subscribe z sched q innerFuel fuel ctxDone env = some r) :
    r = none := by
  revert h
  unfold subscribe
  cases subscribeLoop z sched q innerFuel fuel ctxDone env 0 [] <;>
    intro h <;> simp at h
  exact h.symm

/-- C6 witness: a run in which Subscribe does return yields the nil
return value. -/
theorem subscribe_returns_nil_witness :
    subscribe allOk (fun _ => true) "tasks" 0 1 true
        (fun _ => ConsumeOutcome.fail) = some none ∧
      (none : Option String) = none :=
  ⟨rfl, subscribe_returns_nil allOk (fun _ => true) "tasks" 0 1 true
    (fun _ => ConsumeOutcome.fail) none rfl⟩

/-- Helper: every Consume call recorded by the Subscribe loop carries the
arguments consumeArgs queueName, provided the starting trace already does. -/
theorem subscribeLoop_consume_args_inv (z : HandleInput)
    (sched : Nat → Bool) (q : String) (innerFuel : Nat) :
    ∀ (fuel : Nat) (env : Nat → ConsumeOutcome) (k : Nat) (tr : List SubEvent),
      (∀ a, SubEvent.consumeCall a ∈ tr → a = consumeArgs q) →
      ∀ a, SubEvent.consumeCall a ∈
          traceOf (subscribeLoop z sched q innerFuel fuel false env k tr) →
        a = consumeArgs q := by
  intro fuel
  induction fuel with
  | zero =>
      intro env k tr htr a ha
      exact htr a (by simpa [subscribeLoop, traceOf] using ha)
  | succ n ih =>
      intro env k tr htr a ha
      have hext : ∀ a, SubEvent.consumeCall a ∈
          tr ++ [SubEvent.consumeCall (consumeArgs q)] → a = consumeArgs q := by
        intro b hb
        rcases List.mem_append.1 hb with hb | hb
        · exact htr b hb
        · simpa using hb
      cases henv : env k with
      | fail =>
          simp only [subscribeLoop, henv] at ha
          exact ih env (k + 1) _ hext a ha
      | ok ch =>
          simp only [subscribeLoop, henv] at ha
          cases hm : handleMessage z sched innerFuel false ch [] with
          | returned subs =>
              rw [hm] at ha
              refine ih env (k + 1) _ ?_ a ha
              intro b hb
              rcases List.mem_append.1 hb with hb | hb
              · exact hext b hb
              · simp at hb
          | blocked subs =>
              rw [hm] at ha
              simp only [traceOf] at ha
              rcases List.mem_append.1 ha with hb | hb
              · exact hext a hb
              · simp at hb
          | fuelOut subs =>
              rw [hm] at ha
              simp only [traceOf] at ha
              rcases List.mem_append.1 ha with hb | hb
              · exact hext a hb
              · simp at hb

/-- Helper: when every Consume call fails and the context stays live, the
Subscribe loop does nothing but issue one Consume call per iteration, back
to back, without returning. -/
theorem subscribeLoop_fail_busy_loop (z : HandleInput) (sched : Nat → Bool)
    (q : String) (innerFuel : Nat) :
    ∀ (fuel k : Nat) (tr : List SubEvent),
      subscribeLoop z sched q innerFuel fuel false
          (fun _ => ConsumeOutcome.fail) k tr =
        SubOutcome.fuelOut
          (tr ++ List.replicate fuel (SubEvent.consumeCall (consumeArgs q))) := by
  intro fuel
  induction fuel with
  | zero => intro k tr; simp [subscribeLoop]
  | succ n ih =>
      intro k tr
      have hstep :
          subscribeLoop z sched q innerFuel (n + 1) false
              (fun _ => ConsumeOutcome.fail) k tr =
            subscribeLoop z sched q innerFuel n false
              (fun _ => ConsumeOutcome.fail) (k + 1)
              (tr ++ [SubEvent.consumeCall (consumeArgs q)]) := rfl
      rw [hstep, ih]
      simp [List.replicate_succ, List.append_assoc]

/-- C9: with the context live, every Consume call the Subscribe loop makes
uses the queue name, the tag "consumer." plus the queue name, autoAck,
exclusive, noLocal and noWait all false, and nil args; and when every
Consume call fails the loop retries Consume immediately on each iteration,
with nothing between consecutive calls and no termination. -/
theorem subscribe_consume_args_and_retry (z : HandleInput)
    (sched : Nat → Bool) (q : String) (innerFuel fuel k : Nat) :
    (∀ (env : Nat → ConsumeOutcome) (a : ConsumeArgs),
        SubEvent.consumeCall a ∈
            traceOf (subscribeLoop z sched q innerFuel fuel false env k []) →
          a = { queue := q, consumerTag := "consumer." ++ q, autoAck := false,
                exclusive := false, noLocal := false, noWait := false,
                argsNil := true }) ∧
      subscribeLoop z sched q innerFuel fuel false
          (fun _ => ConsumeOutcome.fail) k [] =
        SubOutcome.fuelOut
          (List.replicate fuel (SubEvent.consumeCall (consumeArgs q))) := by
  constructor
  · intro env a ha
    simpa [consumeArgs] using
      subscribeLoop_consume_args_inv z sched q innerFuel fuel env k []
        (by simp) a ha
  · simpa using subscribeLoop_fail_busy_loop z sched q innerFuel fuel k []

/-- C9 witness: on queue "tasks" the recorded Consume call carries tag
"consumer.tasks" and all-false flags, and two failing iterations produce
exactly two back-to-back Consume calls. -/
theorem subscribe_consume_args_and_retry_witness :
    consumeArgs "tasks" =
        { queue := "tasks", consumerTag := "consumer.tasks", autoAck := false,
          exclusive := false, noLocal := false, noWait := false,
          argsNil := true } ∧
      subscribeLoop allOk (fun _ => true) "tasks" 0 2 false
          (fun _ => ConsumeOutcome.fail) 0 [] =
        SubOutcome.fuelOut
          (List.replicate 2 (SubEvent.consumeCall (consumeArgs "tasks"))) :=
  ⟨(subscribe_consume_args_and_retry allOk (fun _ => true) "tasks" 0 1 0).1
      (fun _ => ConsumeOutcome.fail) (consumeArgs "tasks") (by decide),
    (subscribe_consume_args_and_retry allOk (fun _ => true) "tasks" 0 2 0).2⟩

end Lirity.Async
